import Mathlib

/-
Verification of the OAuth authorization-server core of simple_mcp_server.

The definitions below are a shallow embedding of the Python source:

  * src/main.py           (token endpoint lines 581-673, consent lines 513-578,
                           login/signup pages lines 386-510)
  * src/oauth/endpoints.py (the same handlers, modular copy: token lines 353-449,
                           consent lines 281-348, login/signup lines 151-276;
                           the handler bodies are line-for-line identical to the
                           main.py copies, so they are embedded once)
  * src/oauth/jwt_utils.py (secret resolution lines 27-67, verification 152-195)
  * src/oauth/middleware.py (shared-access check lines 34-47, dispatch 53-98)
  * src/sse.py             (check_authorization lines 68-93, handlers 96-158)

Python dicts keyed by strings are modelled as association lists in which a
key occurs at most once observably: lookup takes the first binding, deletion
removes every binding of the key, insertion deletes then conses.  Python
truthiness of strings (empty string is false) and of optional values is made
explicit.  time.time() is passed in as a natural number, and the random
values produced by secrets.token_urlsafe are passed in as parameters.
-/

namespace SimpleMcp

/-- Lookup in an association list modelling a Python dict: first binding wins. -/
def lookupKey {α : Type} (k : String) : List (String × α) → Option α
  | [] => none
  | (k₂, v) :: rest => if k = k₂ then some v else lookupKey k rest

/-- Deletion from an association list modelling `del d[k]` on a Python dict. -/
def eraseKey {α : Type} (k : String) (l : List (String × α)) : List (String × α) :=
  l.filter (fun p => p.1 ≠ k)

/-- Insertion modelling `d[k] = v` on a Python dict: the key is rebound. -/
def insertKey {α : Type} (k : String) (v : α) (l : List (String × α)) :
    List (String × α) :=
  (k, v) :: eraseKey k l

theorem lookupKey_eraseKey {α : Type} (k : String) (l : List (String × α)) :
    lookupKey k (eraseKey k l) = none := by
  induction l with
  | nil => rfl
  | cons p rest ih =>
    by_cases h : p.1 = k
    · simpa [eraseKey, h] using ih
    · simpa [eraseKey, lookupKey, h, Ne.symm h] using ih

theorem lookupKey_insertKey {α : Type} (k : String) (v : α)
    (l : List (String × α)) : lookupKey k (insertKey k v l) = some v := by
  simp [insertKey, lookupKey]

/-- Truthiness of a Python optional string: None and the empty string are falsy. -/
def optTruthy : Option String → Bool
  | none => false
  | some s => s ≠ ""

-- ======================================================================
-- Token endpoint (src/main.py lines 581-673 = src/oauth/endpoints.py 353-449)
-- ======================================================================

/-- Data stored under a key of the authorization_codes dict, as written by the
consent handler (src/main.py lines 557-567). -/
structure AuthCodeData where
  client_id : String
  redirect_uri : String
  scope : String
  code_challenge : String
  code_challenge_method : String
  user_id : Option String
  user_email : Option String
  created_at : Nat
  expires_at : Nat
  deriving DecidableEq, Repr

/-- Data stored under a key of the access_tokens dict by the token endpoint
(src/main.py lines 632-639 and 658-663).  On the refresh path the user keys
are absent from the dict; absence and None are both modelled as none, which
is observationally equivalent for every read in the source (all reads use
dict.get). -/
structure AccessTokenData where
  client_id : Option String
  scope : String
  user_id : Option String
  user_email : Option String
  created_at : Nat
  expires_at : Nat
  deriving DecidableEq, Repr

/-- Parameters of a POST /token request after form/JSON extraction
(src/main.py lines 582-605).  A missing field is none; the JSON-parse-failure
branch (invalid_request) is prior to the logic modelled here. -/
structure TokenRequest where
  grant_type : Option String
  code : Option String
  redirect_uri : Option String
  client_id : Option String
  client_secret : Option String
  code_verifier : Option String
  refresh_token : Option String
  deriving DecidableEq, Repr

/-- Mutable state read and written by the token endpoint. -/
structure TokenState where
  authorization_codes : List (String × AuthCodeData)
  access_tokens : List (String × AccessTokenData)
  deriving DecidableEq, Repr

/-- Responses of the token endpoint body: a JSON token response (status 200)
or a JSON error response with its HTTP status. -/
inductive TokenResult where
  | tokenResponse (access_token : String) (token_type : String)
      (expires_in : Nat) (refresh_token : String) (scope : String)
  | errorResponse (status : Nat) (error : String)
      (error_description : Option String)
  deriving DecidableEq, Repr

/-- PKCE acceptance test of src/main.py lines 619-625: the comparison is
performed only when both the stored code_challenge and the supplied
code_verifier are truthy; an absent or empty verifier, or an empty stored
challenge, skips the check entirely.  s256 stands for the composition
base64.urlsafe_b64encode(hashlib.sha256(v.encode()).digest()).rstrip(b"="):
every theorem below holds for an arbitrary such function. -/
def pkce_ok (s256 : String → String) (verifier : Option String)
    (d : AuthCodeData) : Bool :=
  match verifier with
  | none => true
  | some v =>
    if d.code_challenge ≠ "" ∧ v ≠ "" then
      if s256 v ≠ d.code_challenge then false else true
    else true

/-- Token endpoint body, translated from src/main.py lines 607-673 (identical
in src/oauth/endpoints.py lines 381-449).  now models int(time.time());
newAccess and newRefresh model the two secrets.token_urlsafe(32) draws. -/
def token (s256 : String → String) (now : Nat) (newAccess newRefresh : String)
    (req : TokenRequest) (st : TokenState) : TokenResult × TokenState :=
  match req.grant_type with
  | some gt =>
    if gt = "authorization_code" then
      match req.code with
      | none => (.errorResponse 400 "invalid_grant" none, st)
      | some c =>
        if c = "" then (.errorResponse 400 "invalid_grant" none, st)
        else
          match lookupKey c st.authorization_codes with
          | none => (.errorResponse 400 "invalid_grant" none, st)
          | some d =>
            if d.expires_at < now then
              (.errorResponse 400 "invalid_grant" (some "Code expired"),
               { st with authorization_codes :=
                   eraseKey c st.authorization_codes })
            else if pkce_ok s256 req.code_verifier d then
              let tokenData : AccessTokenData :=
                ⟨req.client_id, d.scope, d.user_id, d.user_email, now, now + 3600⟩
              (.tokenResponse newAccess "Bearer" 3600 newRefresh d.scope,
               { st with
                   access_tokens := insertKey newAccess tokenData st.access_tokens,
                   authorization_codes := eraseKey c st.authorization_codes })
            else
              (.errorResponse 400 "invalid_grant"
                 (some "PKCE verification failed"), st)
    else if gt = "refresh_token" then
      let tokenData : AccessTokenData :=
        ⟨req.client_id, "mcp:tools", none, none, now, now + 3600⟩
      (.tokenResponse newAccess "Bearer" 3600 newRefresh "mcp:tools",
       { st with access_tokens := insertKey newAccess tokenData st.access_tokens })
    else (.errorResponse 400 "unsupported_grant_type" none, st)
  | none => (.errorResponse 400 "unsupported_grant_type" none, st)

/-- Access-token lifetime constant of the credential signer,
src/oauth/jwt_utils.py line 19. -/
def ACCESS_TOKEN_EXPIRE_SECONDS : Nat := 24 * 60 * 60

/-- Refresh-token lifetime constant of the credential signer,
src/oauth/jwt_utils.py line 20. -/
def REFRESH_TOKEN_EXPIRE_SECONDS : Nat := 30 * 24 * 60 * 60

-- ======================================================================
-- Authorization-flow endpoints: login, signup, consent
-- (src/main.py lines 386-578 = src/oauth/endpoints.py lines 151-348)
-- ======================================================================

/-- Data stored under a key of the pending_authorizations dict by the
authorize handler (src/main.py lines 370-380). -/
structure PendingAuth where
  client_id : String
  redirect_uri : String
  scope : String
  state : String
  code_challenge : String
  code_challenge_method : String
  created_at : Nat
  expires_at : Nat
  deriving DecidableEq, Repr

/-- Data stored under a key of the authenticated_sessions dict by the login
handler (src/main.py lines 424 and 434-437); reads use dict.get, so both
fields are optional. -/
structure UserInfo where
  user_id : Option String
  email : Option String
  deriving DecidableEq, Repr

/-- Mutable state read and written by the login, signup and consent handlers. -/
structure SessionState where
  pending_authorizations : List (String × PendingAuth)
  authenticated_sessions : List (String × UserInfo)
  authorization_codes : List (String × AuthCodeData)
  deriving DecidableEq, Repr

/-- Responses of the session-bearing HTML endpoints. -/
inductive PageResult where
  | invalidSession                               -- 400 Invalid or expired session
  | sessionExpired                               -- 400 Session expired
  | loginForm (successBanner : Bool)             -- 200 login page
  | loginFormError                               -- 200 login page, error banner
  | signupForm (errorBanner : Bool)              -- 200 signup page
  | consentForm (user_email : String)            -- 200 consent page
  | redirect (target : String) (params : List (String × String))  -- 302
  deriving DecidableEq, Repr

/-- HTTP status of each PageResult, as set by the source handlers. -/
def PageResult.status : PageResult → Nat
  | .invalidSession => 400
  | .sessionExpired => 400
  | .loginForm _ => 200
  | .loginFormError => 200
  | .signupForm _ => 200
  | .consentForm _ => 200
  | .redirect _ _ => 302

/-- Outcome of the external identity collaborator (Supabase) as observed by
the login and signup handlers: not configured, user returned, no user in the
response, or an exception raised by the call. -/
inductive IdentityOutcome where
  | notConfigured
  | ok (uid : String) (uemail : Option String)
  | rejected
  | errored
  deriving DecidableEq, Repr

/-- GET /login handler, src/main.py lines 386-403 (= oauth/endpoints.py
151-168). -/
def login_page (session registered : String) (now : Nat) (st : SessionState) :
    PageResult × SessionState :=
  if session = "" then (.invalidSession, st)
  else
    match lookupKey session st.pending_authorizations with
    | none => (.invalidSession, st)
    | some a =>
      if a.expires_at < now then
        (.sessionExpired,
         { st with pending_authorizations :=
             eraseKey session st.pending_authorizations })
      else (.loginForm (registered = "1"), st)

/-- POST /login handler, src/main.py lines 406-444 (= oauth/endpoints.py
171-210).  The Supabase call is abstracted by the backend outcome. -/
def login_submit (backend : IdentityOutcome) (session email _password : String)
    (now : Nat) (st : SessionState) : PageResult × SessionState :=
  if session = "" then (.invalidSession, st)
  else
    match lookupKey session st.pending_authorizations with
    | none => (.invalidSession, st)
    | some a =>
      if a.expires_at < now then
        (.sessionExpired,
         { st with pending_authorizations :=
             eraseKey session st.pending_authorizations })
      else
        match backend with
        | .notConfigured =>
          (.redirect "/consent" [("session", session)],
           { st with authenticated_sessions :=
               (insertKey session (UserInfo.mk (some "demo-user") (some email))
                 st.authenticated_sessions) })
        | .ok uid uemail =>
          (.redirect "/consent" [("session", session)],
           { st with authenticated_sessions :=
               (insertKey session (UserInfo.mk (some uid) uemail)
                 st.authenticated_sessions) })
        | .rejected => (.loginFormError, st)
        | .errored => (.loginFormError, st)

/-- GET /signup handler, src/main.py lines 447-459 (= oauth/endpoints.py
213-225). -/
def signup_page (session : String) (now : Nat) (st : SessionState) :
    PageResult × SessionState :=
  if session = "" then (.invalidSession, st)
  else
    match lookupKey session st.pending_authorizations with
    | none => (.invalidSession, st)
    | some a =>
      if a.expires_at < now then
        (.sessionExpired,
         { st with pending_authorizations :=
             eraseKey session st.pending_authorizations })
      else (.signupForm false, st)

/-- POST /signup handler, src/main.py lines 462-510 (= oauth/endpoints.py
228-276). -/
def signup_submit (backend : IdentityOutcome)
    (session _email password confirm_password : String) (now : Nat)
    (st : SessionState) : PageResult × SessionState :=
  if session = "" then (.invalidSession, st)
  else
    match lookupKey session st.pending_authorizations with
    | none => (.invalidSession, st)
    | some a =>
      if a.expires_at < now then
        (.sessionExpired,
         { st with pending_authorizations :=
             eraseKey session st.pending_authorizations })
      else if password ≠ confirm_password then (.signupForm true, st)
      else if password.length < 6 then (.signupForm true, st)
      else
        match backend with
        | .notConfigured =>
          (.redirect "/login" [("session", session), ("registered", "1")], st)
        | .ok _ _ =>
          (.redirect "/login" [("session", session), ("registered", "1")], st)
        | .rejected => (.signupForm true, st)
        | .errored => (.signupForm true, st)

/-- GET /consent handler, src/main.py lines 513-526 (= oauth/endpoints.py
281-294).  Note that unlike login and signup it performs no expiry check. -/
def consent_page (session : String) (st : SessionState) :
    PageResult × SessionState :=
  if session = "" then (.invalidSession, st)
  else
    match lookupKey session st.pending_authorizations with
    | none => (.invalidSession, st)
    | some _ =>
      match lookupKey session st.authenticated_sessions with
      | none => (.redirect "/login" [("session", session)], st)
      | some ui => (.consentForm (ui.email.getD "Unknown"), st)

/-- POST /consent handler, src/main.py lines 529-578 (= oauth/endpoints.py
297-348).  freshCode models the secrets.token_urlsafe(32) draw.  Note that
the handler checks neither expiry of the pending authorization nor the
presence of an authenticated session; any action other than deny takes the
allow path. -/
def consent_submit (session action : String) (now : Nat) (freshCode : String)
    (st : SessionState) : PageResult × SessionState :=
  if session = "" then (.invalidSession, st)
  else
    match lookupKey session st.pending_authorizations with
    | none => (.invalidSession, st)
    | some a =>
      if action = "deny" then
        (.redirect a.redirect_uri
           ([("error", "access_denied"),
             ("error_description", "User denied access")] ++
            (if a.state ≠ "" then [("state", a.state)] else [])),
         { st with
             pending_authorizations :=
               eraseKey session st.pending_authorizations,
             authenticated_sessions :=
               eraseKey session st.authenticated_sessions })
      else
        let ui : UserInfo :=
          (lookupKey session st.authenticated_sessions).getD ⟨none, none⟩
        let d : AuthCodeData :=
          ⟨a.client_id, a.redirect_uri, a.scope, a.code_challenge,
           a.code_challenge_method, ui.user_id, ui.email, now, now + 600⟩
        (.redirect a.redirect_uri
           ([("code", freshCode)] ++
            (if a.state ≠ "" then [("state", a.state)] else [])),
         { st with
             pending_authorizations :=
               eraseKey session st.pending_authorizations,
             authenticated_sessions :=
               eraseKey session st.authenticated_sessions,
             authorization_codes :=
               insertKey freshCode d st.authorization_codes })

-- ======================================================================
-- Credential verification and access-control middleware
-- (src/oauth/jwt_utils.py lines 152-195, src/oauth/middleware.py 34-98,
--  src/sse.py 68-158)
-- ======================================================================

/-- Claims of a decoded JWT payload (src/oauth/jwt_utils.py lines 96-105). -/
structure JwtPayload where
  sub : Option String
  email : Option String
  client_id : Option String
  scope : Option String
  iss : Option String
  iat : Option Nat
  exp : Option Nat
  tokType : Option String     -- models the payload key "type"
  deriving DecidableEq, Repr

/-- Splitting of a character sequence at every dot, modelling the segment
split performed by jwt.decode on a compact JWS: a serialized JWT consists of
exactly three dot-separated base64url segments. -/
def splitDots : List Char → List (List Char)
  | [] => [[]]
  | c :: rest =>
    if c = '.' then [] :: splitDots rest
    else
      match splitDots rest with
      | [] => [[c]]
      | s :: ss => (c :: s) :: ss

theorem splitDots_no_dot (cs : List Char) (h : ∀ c ∈ cs, c ≠ '.') :
    splitDots cs = [cs] := by
  induction cs with
  | nil => rfl
  | cons c rest ih =>
    have hc : c ≠ '.' := h c (List.mem_cons_self c rest)
    have hrest : splitDots rest = [rest] :=
      ih (fun x hx => h x (List.mem_cons_of_mem c hx))
    simp [splitDots, hc, hrest]

/-- JWT access-token verification, src/oauth/jwt_utils.py lines 152-195.
The token string must parse into exactly three dot-separated segments; the
signature check, claim requirements (exp, sub), expiry check and issuer check
performed inside jwt.decode are abstracted by the core parameter, so every
theorem below holds for an arbitrary core.  After a successful decode the
function requires the type claim to equal access (lines 184-186); any decode
failure returns none (lines 190-195). -/
def verify_access_token
    (core : List Char → List Char → List Char → Option JwtPayload)
    (token : List Char) : Option JwtPayload :=
  match splitDots token with
  | [h, p, sg] =>
    match core h p sg with
    | some payload =>
      if payload.tokType = some "access" then some payload else none
    | none => none
  | _ => none

/-- Local configuration attributes consumed by the access-control paths
(user_id and robot_name reads in src/oauth/middleware.py lines 80 and 89-90
and src/sse.py lines 70 and 83). -/
structure LocalConfig where
  user_id : Option String
  robot_name : Option String
  deriving DecidableEq, Repr

/-- Authorization decision outcome shared by both transport paths. -/
inductive AuthzResult where
  | allowed
  | denied403
  deriving DecidableEq, Repr

/-- Owner-or-shared decision of MCPOAuthMiddleware.dispatch,
src/oauth/middleware.py lines 79-98: allow when the token subject equals the
configured user_id, else consult the shared-access policy when a robot_name
is configured (truthy), else deny with 403.  policy models the boolean result
of check_shared_access(robot_name, connecting_user_id). -/
def middleware_check (policy : String → Option String → Bool)
    (cfg : LocalConfig) (td : JwtPayload) : AuthzResult :=
  let creator := cfg.user_id
  let connecting := td.sub
  if connecting = creator then .allowed
  else
    match cfg.robot_name with
    | some rn =>
      if rn = "" then .denied403
      else if policy rn connecting then .allowed else .denied403
    | none => .denied403

/-- Owner-or-shared decision of check_authorization, src/sse.py lines 68-93:
allow when no creator is configured (falsy user_id), or the token subject
equals the creator, or a configured robot_name passes the shared-access
policy; otherwise raise 403 (converted to a 403 response by the callers). -/
def sse_check_authorization (policy : String → Option String → Bool)
    (cfg : Option LocalConfig) (td : JwtPayload) : AuthzResult :=
  let creator : Option String :=
    match cfg with
    | some c => c.user_id
    | none => none
  let connecting := td.sub
  if optTruthy creator = false then .allowed
  else if connecting = creator then .allowed
  else
    let robot_name : Option String :=
      match cfg with
      | some c => c.robot_name
      | none => none
    match robot_name with
    | some rn =>
      if rn = "" then .denied403
      else if policy rn connecting then .allowed else .denied403
    | none => .denied403

/-- Outcome of a protected request after the bearer check, token verification
and authorization decision. -/
inductive RequestOutcome where
  | unauthorized (status : Nat)     -- 401 with WWW-Authenticate header
  | forbidden (status : Nat)        -- 403
  | passed (payload : JwtPayload)   -- handed to the protected handler
  deriving DecidableEq, Repr

/-- MCPOAuthMiddleware.dispatch, src/oauth/middleware.py lines 53-98: require
a Bearer authorization header, verify the token as a JWT access token, then
apply the owner-or-shared decision.  The header is modelled as its character
sequence; the token is the header with the 7-character Bearer prefix
stripped. -/
def dispatch (core : List Char → List Char → List Char → Option JwtPayload)
    (policy : String → Option String → Bool) (cfg : LocalConfig)
    (authHeader : List Char) : RequestOutcome :=
  if ("Bearer ".data).isPrefixOf authHeader then
    match verify_access_token core (authHeader.drop 7) with
    | none => .unauthorized 401
    | some td =>
      match middleware_check policy cfg td with
      | .allowed => .passed td
      | .denied403 => .forbidden 403
  else .unauthorized 401

/-- Legacy SSE handlers sse_endpoint and message_endpoint, src/sse.py lines
96-128 and 131-158: both perform the same bearer check, JWT verification and
check_authorization call before serving the request. -/
def sse_handle (core : List Char → List Char → List Char → Option JwtPayload)
    (policy : String → Option String → Bool) (cfg : Option LocalConfig)
    (authHeader : List Char) : RequestOutcome :=
  if ("Bearer ".data).isPrefixOf authHeader then
    match verify_access_token core (authHeader.drop 7) with
    | none => .unauthorized 401
    | some td =>
      match sse_check_authorization policy cfg td with
      | .allowed => .passed td
      | .denied403 => .forbidden 403
  else .unauthorized 401

/-- Character alphabet of secrets.token_urlsafe output: base64url uses
letters, digits, hyphen and underscore only. -/
def isUrlsafeChar (c : Char) : Bool :=
  c.isAlphanum || c = '-' || c = '_'

-- ======================================================================
-- Shared-access check (src/oauth/middleware.py lines 34-47)
-- ======================================================================

/-- Observable outcome of the HTTP POST to the access-policy collaborator:
either some exception was raised (connection error, timeout, or JSON parse
failure), or a response arrived with a status code and an optional boolean
under the allowed key of its JSON body. -/
inductive HttpOutcome where
  | failure
  | response (status : Nat) (allowedField : Option Bool)
  deriving DecidableEq, Repr

/-- Timeout in seconds passed to the HTTP client in check_shared_access,
src/oauth/middleware.py line 37 (timeout=5.0). -/
def CHECK_SHARED_ACCESS_TIMEOUT : Nat := 5

/-- check_shared_access, src/oauth/middleware.py lines 34-47: return the
allowed field of a 200 response, defaulting to False; every exception and
every non-200 response yields False. -/
def check_shared_access (outcome : HttpOutcome) : Bool :=
  match outcome with
  | .failure => false
  | .response status allowedField =>
    if status = 200 then allowedField.getD false else false

-- ======================================================================
-- Signing-secret resolution (src/oauth/jwt_utils.py lines 27-67)
-- ======================================================================

/-- World state of the secret-resolution routine: the module-global cache
_jwt_secret, the JWT_SECRET environment variable, and the contents and
permission bits of the persisted secret file (none when the file does not
exist). -/
structure SecretWorld where
  cached : Option String
  env : Option String
  fileContents : Option String
  filePerms : Option Nat
  deriving DecidableEq, Repr

/-- Whitespace stripping from both ends of a string, modelling the Python
str.strip() call on the secret file contents (src/oauth/jwt_utils.py
line 48). -/
def pyStrip (s : String) : String :=
  String.mk (((s.data.dropWhile Char.isWhitespace).reverse.dropWhile
    Char.isWhitespace).reverse)

/-- _get_or_create_secret, src/oauth/jwt_utils.py lines 27-67.  Resolution
order: the truthy cached global, then a truthy environment override, then a
truthy stripped secret file, then a freshly generated secret (fresh models
the secrets.token_urlsafe(64) draw) which is persisted with mode 0o600.
readOk models whether the file read raises IOError (lines 47-53) and writeOk
whether persisting raises IOError (lines 59-65); on a failed write the fresh
secret is still returned and cached. -/
def get_or_create_secret (readOk writeOk : Bool) (fresh : String)
    (w : SecretWorld) : String × SecretWorld :=
  match w.cached with
  | some s =>
    if s ≠ "" then (s, w) else getFresh
  | none => getFresh
where
  getFresh : String × SecretWorld :=
    match w.env with
    | some e =>
      if e ≠ "" then (e, { w with cached := some e }) else fromFile
    | none => fromFile
  fromFile : String × SecretWorld :=
    match w.fileContents with
    | some f =>
      if readOk ∧ pyStrip f ≠ "" then
        (pyStrip f, { w with cached := some (pyStrip f) })
      else generate
    | none => generate
  generate : String × SecretWorld :=
    if writeOk then
      (fresh, { w with cached := some fresh, fileContents := some fresh,
                       filePerms := some 0o600 })
    else
      (fresh, { w with cached := some fresh })

-- ======================================================================
-- Theorems
-- ======================================================================

/-- C1: for every authorization code present in the authorization-codes store
and not past its expires_at, a POST /token request with
grant_type=authorization_code redeeming that code (and passing the PKCE test
the endpoint applies) succeeds exactly once: the successful redemption
deletes the code from the store before the token response is returned, and
any second redemption of the same code value returns invalid_grant with
status 400. -/
theorem authorization_code_single_use
    (s256 : String → String) (now : Nat) (newAccess newRefresh : String)
    (req : TokenRequest) (st : TokenState) (c : String) (d : AuthCodeData)
    (hg : req.grant_type = some "authorization_code")
    (hc : req.code = some c) (hc0 : c ≠ "")
    (hd : lookupKey c st.authorization_codes = some d)
    (hexp : ¬ d.expires_at < now)
    (hpkce : pkce_ok s256 req.code_verifier d = true) :
    (token s256 now newAccess newRefresh req st).1 =
      TokenResult.tokenResponse newAccess "Bearer" 3600 newRefresh d.scope
    ∧ lookupKey c
        (token s256 now newAccess newRefresh req st).2.authorization_codes
        = none
    ∧ ∀ (s2 : String → String) (n2 : Nat) (a2 r2 : String)
        (req2 : TokenRequest),
        req2.grant_type = some "authorization_code" → req2.code = some c →
        (token s2 n2 a2 r2 req2
            (token s256 now newAccess newRefresh req st).2).1 =
          TokenResult.errorResponse 400 "invalid_grant" none := by
  have h1 : token s256 now newAccess newRefresh req st =
      (TokenResult.tokenResponse newAccess "Bearer" 3600 newRefresh d.scope,
       { st with
           access_tokens :=
             insertKey newAccess
               ⟨req.client_id, d.scope, d.user_id, d.user_email, now,
                now + 3600⟩ st.access_tokens,
           authorization_codes := eraseKey c st.authorization_codes }) := by
    simp [token, hg, hc, hc0, hd, hexp, hpkce]
  refine ⟨by rw [h1], ?_, ?_⟩
  · rw [h1]
    exact lookupKey_eraseKey c st.authorization_codes
  · intro s2 n2 a2 r2 req2 hg2 hc2
    rw [h1]
    simp [token, hg2, hc2, hc0, lookupKey_eraseKey]

/-- C1 witness: concrete single-use redemption of code c1. -/
theorem authorization_code_single_use_witness :
    (token (fun _ => "") 10 "AT" "RT"
        (TokenRequest.mk (some "authorization_code") (some "c1") none none
          none none none)
        (TokenState.mk
          [("c1", AuthCodeData.mk "cid" "https://cb" "mcp:tools" "" "S256"
              (some "u1") (some "u@example.com") 0 600)] [])).1 =
      TokenResult.tokenResponse "AT" "Bearer" 3600 "RT" "mcp:tools"
    ∧ lookupKey "c1"
        (token (fun _ => "") 10 "AT" "RT"
          (TokenRequest.mk (some "authorization_code") (some "c1") none none
            none none none)
          (TokenState.mk
            [("c1", AuthCodeData.mk "cid" "https://cb" "mcp:tools" "" "S256"
                (some "u1") (some "u@example.com") 0 600)]
            [])).2.authorization_codes = none := by
  have h := authorization_code_single_use (fun _ => "") 10 "AT" "RT"
    (TokenRequest.mk (some "authorization_code") (some "c1") none none none
      none none)
    (TokenState.mk
      [("c1", AuthCodeData.mk "cid" "https://cb" "mcp:tools" "" "S256"
          (some "u1") (some "u@example.com") 0 600)] [])
    "c1"
    (AuthCodeData.mk "cid" "https://cb" "mcp:tools" "" "S256" (some "u1")
      (some "u@example.com") 0 600)
    rfl rfl (by decide) (by decide) (by decide) (by decide)
  exact ⟨h.1, h.2.1⟩

/-- C2 (code bug): a stored authorization code with a non-empty
code_challenge is exchanged successfully by a request that supplies no
code_verifier at all — the endpoint skips PKCE verification whenever the
verifier is absent (the condition on src/main.py line 619 requires both the
challenge and the verifier to be truthy before comparing), so the claimed
invalid_grant rejection of verifier-less requests does not happen.  The hash
function chosen here maps every input away from the stored challenge, so no
verifier could have matched it. -/
theorem pkce_skipped_when_verifier_absent :
    (token (fun v => v ++ "#") 10 "AT" "RT"
        (TokenRequest.mk (some "authorization_code") (some "c1") none none
          none none none)
        (TokenState.mk
          [("c1", AuthCodeData.mk "cid" "https://cb" "mcp:tools" "CHALLENGE"
              "S256" (some "u1") (some "u@example.com") 0 600)] [])).1 =
      TokenResult.tokenResponse "AT" "Bearer" 3600 "RT" "mcp:tools" := by
  decide

/-- C3 (code bug): a successful authorization_code exchange returns an
opaque random token with expires_in = 3600 (one hour) and records it in the
server-side access_tokens store; the credential signer with its 24-hour
access / 30-day refresh lifetimes (ACCESS_TOKEN_EXPIRE_SECONDS,
REFRESH_TOKEN_EXPIRE_SECONDS) is never invoked by the endpoint, contradicting
the claimed signed, unstored, 86400-second tokens. -/
theorem token_endpoint_stores_opaque_one_hour_tokens :
    (token (fun _ => "") 10 "AT" "RT"
        (TokenRequest.mk (some "authorization_code") (some "c1") none none
          none none none)
        (TokenState.mk
          [("c1", AuthCodeData.mk "cid" "https://cb" "mcp:tools" "" "S256"
              (some "u1") (some "u@example.com") 0 600)] [])).1 =
      TokenResult.tokenResponse "AT" "Bearer" 3600 "RT" "mcp:tools"
    ∧ lookupKey "AT"
        (token (fun _ => "") 10 "AT" "RT"
          (TokenRequest.mk (some "authorization_code") (some "c1") none none
            none none none)
          (TokenState.mk
            [("c1", AuthCodeData.mk "cid" "https://cb" "mcp:tools" "" "S256"
                (some "u1") (some "u@example.com") 0 600)] [])).2.access_tokens
        = some (AccessTokenData.mk none "mcp:tools" (some "u1")
            (some "u@example.com") 10 3610)
    ∧ ACCESS_TOKEN_EXPIRE_SECONDS = 86400
    ∧ REFRESH_TOKEN_EXPIRE_SECONDS = 2592000
    ∧ 3600 ≠ ACCESS_TOKEN_EXPIRE_SECONDS := by
  refine ⟨by decide, by decide, by decide, by decide, by decide⟩

/-- C4: every string over the base64url alphabet of secrets.token_urlsafe —
such as every access token issued by the POST /token endpoint — contains no
JWT segment separator, is rejected by verify_access_token (it returns none
for every decode core, issuer and configuration), and is therefore answered
with 401 by both MCPOAuthMiddleware.dispatch and the legacy SSE handlers. -/
theorem urlsafe_tokens_rejected_by_jwt_verification
    (core : List Char → List Char → List Char → Option JwtPayload)
    (policy policy2 : String → Option String → Bool)
    (cfg : LocalConfig) (cfg2 : Option LocalConfig) (t : String)
    (h : ∀ c ∈ t.data, isUrlsafeChar c = true) :
    (∀ c ∈ t.data, c ≠ '.')
    ∧ verify_access_token core t.data = none
    ∧ dispatch core policy cfg ("Bearer ".data ++ t.data) =
        RequestOutcome.unauthorized 401
    ∧ sse_handle core policy2 cfg2 ("Bearer ".data ++ t.data) =
        RequestOutcome.unauthorized 401 := by
  have hnodot : ∀ c ∈ t.data, c ≠ '.' := by
    intro c hc hdot
    have := h c hc
    rw [hdot] at this
    simp [isUrlsafeChar] at this
  have hsplit : splitDots t.data = [t.data] := splitDots_no_dot t.data hnodot
  have hverify : verify_access_token core t.data = none := by
    rw [verify_access_token, hsplit]
  have hpre : ("Bearer ".data).isPrefixOf ("Bearer ".data ++ t.data) = true := by
    rw [List.isPrefixOf_iff_prefix]
    exact List.prefix_append _ _
  have hdrop : ("Bearer ".data ++ t.data).drop 7 = t.data := by
    have hlen : ("Bearer ".data).length = 7 := by decide
    rw [← hlen]
    simp
  refine ⟨hnodot, hverify, ?_, ?_⟩
  · rw [dispatch, if_pos hpre, hdrop, hverify]
  · rw [sse_handle, if_pos hpre, hdrop, hverify]

/-- C4 witness: the concrete urlsafe token tok-123_A is rejected with 401 on
both transport paths. -/
theorem urlsafe_tokens_rejected_witness :
    verify_access_token (fun _ _ _ => none) "tok-123_A".data = none
    ∧ dispatch (fun _ _ _ => none) (fun _ _ => false)
        (LocalConfig.mk none none) ("Bearer ".data ++ "tok-123_A".data) =
        RequestOutcome.unauthorized 401
    ∧ sse_handle (fun _ _ _ => none) (fun _ _ => false) none
        ("Bearer ".data ++ "tok-123_A".data) =
        RequestOutcome.unauthorized 401 := by
  have h := urlsafe_tokens_rejected_by_jwt_verification
    (fun _ _ _ => none) (fun _ _ => false) (fun _ _ => false)
    (LocalConfig.mk none none) none "tok-123_A" (by decide)
  exact ⟨h.2.1, h.2.2.1, h.2.2.2⟩

/-- C5 (code bug): the owner-or-shared decision diverges between the two
transport paths in open mode.  With no owner configured (user_id = None,
robot_name = None) and a valid token whose subject is alice, the legacy SSE
check_authorization allows the request (its open-mode branch on src/sse.py
lines 73-75), while MCPOAuthMiddleware.dispatch, which has no open-mode
branch (src/oauth/middleware.py lines 79-98), denies it with 403. -/
theorem authorization_decision_divergence_open_mode :
    middleware_check (fun _ _ => false) (LocalConfig.mk none none)
        (JwtPayload.mk (some "alice") (some "alice@example.com") none none
          none none none (some "access"))
      = AuthzResult.denied403
    ∧ sse_check_authorization (fun _ _ => false)
        (some (LocalConfig.mk none none))
        (JwtPayload.mk (some "alice") (some "alice@example.com") none none
          none none none (some "access"))
      = AuthzResult.allowed := by
  refine ⟨by decide, by decide⟩

/-- C6 (code bug): POST /consent proceeds without an AuthenticatedSession.
With a PendingAuthorization stored under s1 and no authenticated session at
all, action=allow does not redirect to login: it mints an AuthorizationCode
whose user_id and user_email are both absent (None) — the handler reads
authenticated_sessions.get(session, empty dict) on src/main.py line 555
instead of requiring the session — and redirects to the client with the
code. -/
theorem consent_submit_mints_code_without_authenticated_session :
    (consent_submit "s1" "allow" 100 "CODE"
        (SessionState.mk
          [("s1", PendingAuth.mk "cid" "https://cb" "mcp:tools" "xyz" "CHAL"
              "S256" 0 600)] [] [])).1 =
      PageResult.redirect "https://cb" [("code", "CODE"), ("state", "xyz")]
    ∧ lookupKey "CODE"
        (consent_submit "s1" "allow" 100 "CODE"
          (SessionState.mk
            [("s1", PendingAuth.mk "cid" "https://cb" "mcp:tools" "xyz" "CHAL"
                "S256" 0 600)] [] [])).2.authorization_codes =
        some (AuthCodeData.mk "cid" "https://cb" "mcp:tools" "CHAL" "S256"
          none none 100 700) := by
  refine ⟨by decide, by decide⟩

/-- C7 (code bug): with a pending authorization whose expires_at = 600 read
at now = 1000, the login and signup endpoints return the expired 400 response
and delete the entry, but the consent endpoints do not check expiry at all:
GET /consent serves the expired session (redirecting to login here, keeping
the expired entry in the store), and POST /consent action=allow proceeds to
mint an authorization code from the expired pending authorization and
redirect with it (status 302, not 400). -/
theorem consent_endpoints_skip_expiry_check :
    (login_page "s1" "" 1000
        (SessionState.mk
          [("s1", PendingAuth.mk "cid" "https://cb" "mcp:tools" "" "" "S256"
              0 600)] [] [])).1 = PageResult.sessionExpired
    ∧ (login_page "s1" "" 1000
        (SessionState.mk
          [("s1", PendingAuth.mk "cid" "https://cb" "mcp:tools" "" "" "S256"
              0 600)] [] [])).2.pending_authorizations = []
    ∧ (signup_page "s1" 1000
        (SessionState.mk
          [("s1", PendingAuth.mk "cid" "https://cb" "mcp:tools" "" "" "S256"
              0 600)] [] [])).1 = PageResult.sessionExpired
    ∧ (consent_page "s1"
        (SessionState.mk
          [("s1", PendingAuth.mk "cid" "https://cb" "mcp:tools" "" "" "S256"
              0 600)] [] [])).1 =
        PageResult.redirect "/login" [("session", "s1")]
    ∧ (consent_page "s1"
        (SessionState.mk
          [("s1", PendingAuth.mk "cid" "https://cb" "mcp:tools" "" "" "S256"
              0 600)] [] [])).2.pending_authorizations =
        [("s1", PendingAuth.mk "cid" "https://cb" "mcp:tools" "" "" "S256"
            0 600)]
    ∧ (consent_submit "s1" "allow" 1000 "CODE"
        (SessionState.mk
          [("s1", PendingAuth.mk "cid" "https://cb" "mcp:tools" "" "" "S256"
              0 600)] [] [])).1 =
        PageResult.redirect "https://cb" [("code", "CODE")]
    ∧ (PageResult.redirect "https://cb" [("code", "CODE")]).status = 302 := by
  refine ⟨by decide, by decide, by decide, by decide, by decide, by decide,
    by decide⟩

/-- C8 counterexample: a POST /token request with grant_type=refresh_token
that supplies no refresh_token value at all still receives a full token
response, refuting the claim that such a request does not receive one. -/
theorem refresh_grant_without_token_still_issues :
    (token (fun _ => "") 10 "AT" "RT"
        (TokenRequest.mk (some "refresh_token") none none none none none
          none)
        (TokenState.mk [] [])).1 =
      TokenResult.tokenResponse "AT" "Bearer" 3600 "RT" "mcp:tools" := by
  decide

/-- C8 as amended: the refresh_token grant is unconditional.  For every
request with grant_type=refresh_token — whether or not a refresh_token value
is supplied — the endpoint issues a fresh opaque token pair with scope
mcp:tools and expires_in 3600, performing no store lookup, no signature
verification and not even a presence check of the refresh_token field; the
authorization-codes store is untouched. -/
theorem refresh_grant_unconditional
    (s256 : String → String) (now : Nat) (newAccess newRefresh : String)
    (req : TokenRequest) (st : TokenState)
    (hg : req.grant_type = some "refresh_token") :
    (token s256 now newAccess newRefresh req st).1 =
      TokenResult.tokenResponse newAccess "Bearer" 3600 newRefresh "mcp:tools"
    ∧ (token s256 now newAccess newRefresh req st).2.authorization_codes =
        st.authorization_codes
    ∧ lookupKey newAccess
        (token s256 now newAccess newRefresh req st).2.access_tokens =
        some (AccessTokenData.mk req.client_id "mcp:tools" none none now
          (now + 3600)) := by
  refine ⟨?_, ?_, ?_⟩ <;> simp [token, hg, lookupKey_insertKey]

/-- C8 witness: concrete unconditional refresh issuance, with an old
refresh token value present but never consulted. -/
theorem refresh_grant_unconditional_witness :
    (token (fun _ => "") 5 "A2" "R2"
        (TokenRequest.mk (some "refresh_token") none none (some "cid") none
          none (some "OLD"))
        (TokenState.mk [] [])).1 =
      TokenResult.tokenResponse "A2" "Bearer" 3600 "R2" "mcp:tools"
    ∧ (token (fun _ => "") 5 "A2" "R2"
        (TokenRequest.mk (some "refresh_token") none none (some "cid") none
          none (some "OLD"))
        (TokenState.mk [] [])).2.authorization_codes = []
    ∧ lookupKey "A2"
        (token (fun _ => "") 5 "A2" "R2"
          (TokenRequest.mk (some "refresh_token") none none (some "cid") none
            none (some "OLD"))
          (TokenState.mk [] [])).2.access_tokens =
        some (AccessTokenData.mk (some "cid") "mcp:tools" none none 5 3605) := by
  exact refresh_grant_unconditional (fun _ => "") 5 "A2" "R2"
    (TokenRequest.mk (some "refresh_token") none none (some "cid") none none
      (some "OLD"))
    (TokenState.mk [] []) rfl

/-- C9: the shared-access check is made with a five-second timeout (a bounded
few-seconds value), and it returns True exactly when the collaborator
answered with status 200 and a JSON body whose allowed field is true; every
exception (connection error, timeout, JSON failure) and every other response
yields False — the check fails closed. -/
theorem check_shared_access_fails_closed :
    CHECK_SHARED_ACCESS_TIMEOUT = 5
    ∧ 1 ≤ CHECK_SHARED_ACCESS_TIMEOUT
    ∧ CHECK_SHARED_ACCESS_TIMEOUT ≤ 10
    ∧ ∀ o : HttpOutcome,
        check_shared_access o = true ↔
          o = HttpOutcome.response 200 (some true) := by
  refine ⟨rfl, by decide, by decide, ?_⟩
  intro o
  rcases o with _ | ⟨s, af⟩
  · simp [check_shared_access]
  · by_cases hs : s = 200
    · subst hs
      rcases af with _ | b
      · simp [check_shared_access]
      · cases b <;> simp [check_shared_access]
    · simp [check_shared_access, hs]

/-- C10: secret resolution is idempotent and ordered.  Starting from a fresh
process (empty cache), with a generated secret that is non-empty and
whitespace-free as secrets.token_urlsafe guarantees: (a) every later call in
the same process returns the identical secret and changes nothing; (b) a
restarted process whose environment override and persisted secret file are
untouched resolves the identical secret; (c) the secret is resolved in the
order environment override, then persisted file (stripped), then a freshly
generated secret persisted with owner-only 0o600 permissions. -/
theorem secret_resolution_idempotent
    (f g : String) (hf : f ≠ "") (ht : pyStrip f = f)
    (w : SecretWorld) (hw : w.cached = none) :
    (∀ (ro wo : Bool) (g2 : String),
        get_or_create_secret ro wo g2 (get_or_create_secret true true f w).2 =
          get_or_create_secret true true f w)
    ∧ (get_or_create_secret true true g
        (SecretWorld.mk none (get_or_create_secret true true f w).2.env
          (get_or_create_secret true true f w).2.fileContents
          (get_or_create_secret true true f w).2.filePerms)).1 =
        (get_or_create_secret true true f w).1
    ∧ (optTruthy w.env = true →
        (get_or_create_secret true true f w).1 = w.env.getD "")
    ∧ (optTruthy w.env = false →
        optTruthy (w.fileContents.map pyStrip) = true →
        (get_or_create_secret true true f w).1 =
          pyStrip (w.fileContents.getD ""))
    ∧ (optTruthy w.env = false →
        optTruthy (w.fileContents.map pyStrip) = false →
        (get_or_create_secret true true f w).1 = f
        ∧ (get_or_create_secret true true f w).2.fileContents = some f
        ∧ (get_or_create_secret true true f w).2.filePerms = some 0o600) := by
  obtain ⟨c, e, fc, fp⟩ := w
  simp only at hw
  subst hw
  rcases e with _ | es
  · rcases fc with _ | fs
    · simp [get_or_create_secret, get_or_create_secret.getFresh,
        get_or_create_secret.fromFile, get_or_create_secret.generate,
        optTruthy, hf, ht]
    · by_cases hfs : pyStrip fs = ""
      · simp [get_or_create_secret, get_or_create_secret.getFresh,
          get_or_create_secret.fromFile, get_or_create_secret.generate,
          optTruthy, hf, ht, hfs]
      · simp [get_or_create_secret, get_or_create_secret.getFresh,
          get_or_create_secret.fromFile, get_or_create_secret.generate,
          optTruthy, hf, ht, hfs]
  · by_cases hes : es = ""
    · subst hes
      rcases fc with _ | fs
      · simp [get_or_create_secret, get_or_create_secret.getFresh,
          get_or_create_secret.fromFile, get_or_create_secret.generate,
          optTruthy, hf, ht]
      · by_cases hfs : pyStrip fs = ""
        · simp [get_or_create_secret, get_or_create_secret.getFresh,
            get_or_create_secret.fromFile, get_or_create_secret.generate,
            optTruthy, hf, ht, hfs]
        · simp [get_or_create_secret, get_or_create_secret.getFresh,
            get_or_create_secret.fromFile, get_or_create_secret.generate,
            optTruthy, hf, ht, hfs]
    · simp [get_or_create_secret, get_or_create_secret.getFresh,
        get_or_create_secret.fromFile, get_or_create_secret.generate,
        optTruthy, hes]

/-- C10 witness: a fresh environment with no override and no secret file
generates the secret SEC, persists it with 0o600 permissions, and a restart
with the persisted file untouched resolves SEC again. -/
theorem secret_resolution_idempotent_witness :
    (get_or_create_secret true true "GEN"
        (SecretWorld.mk none
          ((get_or_create_secret true true "SEC"
              (SecretWorld.mk none none none none)).2.env)
          ((get_or_create_secret true true "SEC"
              (SecretWorld.mk none none none none)).2.fileContents)
          ((get_or_create_secret true true "SEC"
              (SecretWorld.mk none none none none)).2.filePerms))).1 =
      (get_or_create_secret true true "SEC"
        (SecretWorld.mk none none none none)).1
    ∧ (get_or_create_secret true true "SEC"
        (SecretWorld.mk none none none none)).1 = "SEC"
    ∧ (get_or_create_secret true true "SEC"
        (SecretWorld.mk none none none none)).2.fileContents = some "SEC"
    ∧ (get_or_create_secret true true "SEC"
        (SecretWorld.mk none none none none)).2.filePerms = some 0o600 := by
  have h := secret_resolution_idempotent "SEC" "GEN" (by decide) (by decide)
    (SecretWorld.mk none none none none) rfl
  have h3 := h.2.2.2.2 (by decide) (by decide)
  exact ⟨h.2.1, h3.1, h3.2.1, h3.2.2⟩

end SimpleMcp
